import Mathlib

/-!
Verification of the `mizan_hr_jobs` job/applicant tracking core against its
specification.  The Python source under `src/jobs/` is shallowly embedded:
dates are modelled as integer day numbers (a `DateField` holds a whole date,
and `(d1 - d2).days` is exact integer day subtraction), Python `int`
arithmetic as `Nat`/`Int`, Python `float` score arithmetic as exact `ℚ`
(the decimal weights used by the source are representable exactly there),
and Django querysets over already-loaded rows as Lean lists.  Python string
truthiness (`if s:`) is the test `s ≠ ""`, and an optional text column that
may hold `NULL` is an `Option String` whose truthiness is `some s` with
`s ≠ ""`.
-/

namespace MizanHR

/-- Python truthiness of a string value: `""` is falsy, anything else truthy. -/
def pyTruthy (s : String) : Bool := s ≠ ""

/-- Python truthiness of a nullable string column (`None` and `""` are falsy). -/
def pyTruthyOpt : Option String → Bool
  | none => false
  | some s => pyTruthy s

/-- Embeds `jobs/models.py::Education` (fields the core logic reads). -/
structure Education where
  school : String
  degree : String
  year : String
deriving Repr, DecidableEq

/-- Embeds `jobs/models.py::WorkExperience` (fields the core logic reads). -/
structure WorkExperience where
  company : String
  role : String
  duration : String
deriving Repr, DecidableEq

/-- Embeds `jobs/models.py::Skill` (fields the core logic reads). -/
structure Skill where
  name : String
deriving Repr, DecidableEq

/-- Embeds `jobs/models.py::Job`.  `deadline` is a non-nullable `DateField`,
modelled as an integer day number. -/
structure Job where
  title : String
  description : String
  deadline : Int
deriving Repr, DecidableEq

/-- Embeds `jobs/models.py::Applicant` together with its owned child rows
(`education_history`, `work_experience`, `skills` related sets). -/
structure Applicant where
  full_name : String
  email : String
  phone : String
  linkedin : Option String
  cover_letter : String
  status : String
  education_history : List Education
  work_experience : List WorkExperience
  skills : List Skill
deriving Repr, DecidableEq

namespace Job

/-- Embeds `Job.is_expired`: `self.deadline < timezone.now().date()`; the
current date is passed explicitly as `today`. -/
def is_expired (j : Job) (today : Int) : Bool := j.deadline < today

/-- Embeds `Job.days_until_deadline`: `(self.deadline - timezone.now().date()).days`.
The source guards `if not self.deadline: return None`, but the model's
`deadline` column is non-nullable, so the guard never fires and the result is
always the integer day difference. -/
def days_until_deadline (j : Job) (today : Int) : Int := j.deadline - today

/-- Embeds `Job.get_status`: "Expired" when expired; otherwise "Urgent",
"Soon" or "Active" by the number of days left.  The source's `days is None →
"Unknown"` branch is dead code for a non-nullable deadline and is omitted. -/
def get_status (j : Job) (today : Int) : String :=
  if j.is_expired today then "Expired"
  else if j.days_until_deadline today ≤ 3 then "Urgent"
  else if j.days_until_deadline today ≤ 7 then "Soon"
  else "Active"

/-- Embeds `Job.is_urgent`: `0 ≤ days_left ≤ days` (default threshold 7). -/
def is_urgent (j : Job) (today : Int) (days : Int := 7) : Bool :=
  0 ≤ j.days_until_deadline today ∧ j.days_until_deadline today ≤ days

end Job

/-- Rank of a derived job status in the order Expired < Urgent < Soon < Active,
used to state monotonicity of `Job.get_status` in the deadline. -/
def statusRank : String → Nat
  | "Expired" => 0
  | "Urgent" => 1
  | "Soon" => 2
  | "Active" => 3
  | _ => 0

namespace Applicant

/-- Embeds `Applicant.get_profile_completeness_score`: sequential accumulation
of the six condition weights, then `min(score, 100)`.  A related set's
`.exists()` is list non-emptiness. -/
def get_profile_completeness_score (a : Applicant) : Nat :=
  let score := 0
  let score := if pyTruthy a.full_name && pyTruthy a.email && pyTruthy a.phone
               then score + 30 else score
  let score := if pyTruthy a.cover_letter then score + 20 else score
  let score := if !a.education_history.isEmpty then score + 15 else score
  let score := if !a.work_experience.isEmpty then score + 15 else score
  let score := if !a.skills.isEmpty then score + 10 else score
  let score := if pyTruthyOpt a.linkedin then score + 10 else score
  min score 100

end Applicant

/-- `startsWithChars needle hay`: `needle` is an initial segment of `hay`. -/
def startsWithChars : List Char → List Char → Bool
  | [], _ => true
  | _ :: _, [] => false
  | a :: as, b :: bs => a = b && startsWithChars as bs

/-- `containsSub hay needle`: Python's substring operator `needle in hay`,
on explicit character lists. -/
def containsSub : List Char → List Char → Bool
  | [], needle => needle.isEmpty
  | c :: rest, needle => startsWithChars needle (c :: rest) || containsSub rest needle

/-- Python's `str.lower()` (ASCII case mapping), as a character-list map. -/
def strLower (s : String) : String := ⟨s.data.map Char.toLower⟩

namespace Utils

/-- Embeds `jobs/utils.py::calculate_applicant_match_score`: additive float
weights, modelled exactly over `ℚ`; the cover-letter condition is
`job.title.lower() in applicant.cover_letter.lower()`. -/
def calculate_applicant_match_score (applicant : Applicant) (job : Job) : ℚ :=
  let score : ℚ := 0
  let score := if containsSub (strLower applicant.cover_letter).data (strLower job.title).data
               then score + 3/10 else score
  let score := if !applicant.work_experience.isEmpty then score + 2/10 else score
  let score := if !applicant.education_history.isEmpty then score + 2/10 else score
  let score := if !applicant.skills.isEmpty then score + 2/10 else score
  let score := if pyTruthyOpt applicant.linkedin then score + 1/10 else score
  min score 1

end Utils

/-- An applicant record with only full name, email and phone filled in,
used by the spec's completeness-score examples. -/
def contactOnlyApplicant : Applicant :=
  { full_name := "Jane Doe", email := "jane@example.com", phone := "1234567890",
    linkedin := none, cover_letter := "", status := "pending",
    education_history := [], work_experience := [], skills := [] }

/-- An applicant whose cover letter contains the applied job's title
(case-insensitively) and who has no work, education, skills or linkedin,
used by the spec's match-score examples. -/
def coverOnlyApplicant : Applicant :=
  { full_name := "Sam Roe", email := "sam@example.com", phone := "0987654321",
    linkedin := none,
    cover_letter := "I would love to join as a Software Engineer at your company.",
    status := "pending",
    education_history := [], work_experience := [], skills := [] }

/-- The job used by the spec's match-score examples. -/
def engineerJob : Job :=
  { title := "software engineer", description := "Build things.", deadline := 20000 }

/-- Python's whitespace class `\s` (ASCII): space, tab, newline, carriage
return, vertical tab, form feed. -/
def isPySpace (c : Char) : Bool :=
  c == ' ' || c == '\t' || c == '\n' || c == '\r' || c == '\x0b' || c == '\x0c'

/-- Python's `str.strip()`: drop leading and trailing whitespace. -/
def pyStrip (s : String) : String :=
  ⟨((s.data.dropWhile isPySpace).reverse.dropWhile isPySpace).reverse⟩

/-- Split a character list on runs of whitespace, keeping only the non-empty
pieces (Python's `str.split()` with no argument); `acc` holds the current
word reversed. -/
def splitWsAux : List Char → List Char → List String
  | [], acc => if acc.isEmpty then [] else [⟨acc.reverse⟩]
  | c :: rest, acc =>
    if isPySpace c then
      (if acc.isEmpty then [] else [⟨acc.reverse⟩]) ++ splitWsAux rest []
    else splitWsAux rest (c :: acc)

/-- Python's `str.split()` with no argument. -/
def pySplit (s : String) : List String := splitWsAux s.data []

namespace Validators

/-- Embeds `validators.py::validate_phone_number`.  `re.sub(r'[^\d+]', '', v)`
keeps every digit and every plus sign; the two length checks are on that
cleaned string (plus signs included).  `some msg` models a raised
`ValidationError(msg)`, `none` a normal return. -/
def validate_phone_number (value : String) : Option String :=
  if value = "" then none
  else
    let cleaned := value.data.filter (fun c => c.isDigit || c == '+')
    if cleaned.head? = some '+' then
      if cleaned.length < 10 || cleaned.length > 15 then
        some "Invalid phone number format."
      else none
    else
      if cleaned.length < 10 || cleaned.length > 11 then
        some "Phone number must contain 10-11 digits. Accepted formats: (123) 456-7890, 123-456-7890, 1234567890"
      else none

/-- The regex `^https?://(www\.)?linkedin\.com/.*` with `re.IGNORECASE`:
the lowercased string starts with one of the four admissible prefixes
(`.*` always matches). -/
def linkedinOk (v : String) : Bool :=
  let l := (strLower v).data
  startsWithChars "http://linkedin.com/".data l ||
  startsWithChars "https://linkedin.com/".data l ||
  startsWithChars "http://www.linkedin.com/".data l ||
  startsWithChars "https://www.linkedin.com/".data l

/-- Embeds `validators.py::validate_linkedin_url`. -/
def validate_linkedin_url (value : String) : Option String :=
  if value = "" then none
  else if linkedinOk value then none
  else some "Invalid LinkedIn URL. Must start with https://linkedin.com/ or http://linkedin.com/"

/-- Embeds `validators.py::validate_cover_letter_length`: empty is rejected
outright, otherwise the stripped length must be at least 50. -/
def validate_cover_letter_length (value : String) : Option String :=
  if value = "" then some "Cover letter is required."
  else if (pyStrip value).length < 50 then
    some "Cover letter must be at least 50 characters long."
  else none

/-- Full match of the regex `^\d{4}(-\d{4})?$`: four digits, then either the
end or a hyphen and four more digits. -/
def yearMatch (v : String) : Bool :=
  let cs := v.data
  ((cs.take 4).length = 4 && (cs.take 4).all Char.isDigit) &&
  (match cs.drop 4 with
   | [] => true
   | '-' :: rest => rest.length = 4 && rest.all Char.isDigit
   | _ => false)

/-- Embeds `validators.py::validate_year_format`. -/
def validate_year_format (value : String) : Option String :=
  if value = "" then none
  else if yearMatch value then none
  else some "Year must be in format YYYY (e.g., 2020) or YYYY-YYYY (e.g., 2020-2024)."

/-- Take exactly `n` leading digits, returning the rest of the list. -/
def takeDigits (n : Nat) (cs : List Char) : Option (List Char) :=
  if (cs.take n).length = n && (cs.take n).all Char.isDigit then some (cs.drop n)
  else none

/-- Strip a literal pattern case-insensitively (ASCII), returning the rest. -/
def ciStripLit : List Char → List Char → Option (List Char)
  | [], cs => some cs
  | _ :: _, [] => none
  | p :: ps, c :: cs => if c.toLower == p.toLower then ciStripLit ps cs else none

/-- Both regex-backtracking alternatives for the optional month group
`(-\d{2})?`: consuming it (when present) and skipping it. -/
def optMM (cs : List Char) : List (List Char) :=
  (match cs with
   | '-' :: rest =>
     match takeDigits 2 rest with
     | some r => [r]
     | none => []
   | _ => []) ++ [cs]

/-- The final alternation `(\d{4}(-\d{2})?|Present|Current)$` of the duration
regex, case-insensitively, anchored at the end of the string. -/
def durEnd3 (cs : List Char) : Bool :=
  (match takeDigits 4 cs with
   | some r => (optMM r).any List.isEmpty
   | none => false) ||
  (match ciStripLit "present".data cs with
   | some r => r.isEmpty
   | none => false) ||
  (match ciStripLit "current".data cs with
   | some r => r.isEmpty
   | none => false)

/-- Full match of `^(\d{4}(-\d{2})?)\s*-\s*(\d{4}(-\d{2})?|Present|Current)$`
with `re.IGNORECASE`, trying both alternatives of the optional month group
as the regex engine would. -/
def durationMatch (v : String) : Bool :=
  match takeDigits 4 v.data with
  | none => false
  | some r1 =>
    (optMM r1).any (fun rest =>
      match rest.dropWhile isPySpace with
      | '-' :: r2 => durEnd3 (r2.dropWhile isPySpace)
      | _ => false)

/-- Embeds `validators.py::validate_work_duration_format`: the four literal
special values pass, otherwise the duration regex must match. -/
def validate_work_duration_format (value : String) : Option String :=
  if value = "" then none
  else if value = "Present" || value = "Current" || value = "present" || value = "current"
  then none
  else if durationMatch value then none
  else some "Duration must be in format: YYYY-YYYY, YYYY-MM-YYYY-MM, \"Present\", or \"Current\""

/-- Embeds `validators.py::validate_skill_name`: the character-class regex
`^[a-zA-Z0-9\s\+\#\.\/\-]+$` (the string is non-empty when it is checked),
then stripped length at least 2. -/
def validate_skill_name (value : String) : Option String :=
  if value = "" then none
  else if !(value.data.all fun c =>
      c.isAlphanum || isPySpace c || c == '+' || c == '#' || c == '.' || c == '/' || c == '-')
  then
    some "Skill name contains invalid characters. Use only letters, numbers, spaces, and common symbols (+, #, ., /, -)."
  else if (pyStrip value).length < 2 then
    some "Skill name must be at least 2 characters long."
  else none

/-- Embeds `validators.py::validate_full_name`: non-empty, at least two
whitespace-separated parts, each part at least 2 characters, and only
letters, whitespace, hyphens and apostrophes overall. -/
def validate_full_name (value : String) : Option String :=
  if value = "" then some "Full name is required."
  else
    let parts := pySplit (pyStrip value)
    if parts.length < 2 then
      some "Please provide your full name (first and last name)."
    else if parts.any (fun p => p.length < 2) then
      some "Name parts must be at least 2 characters long."
    else if !(value.data.all fun c =>
        c.isAlpha || isPySpace c || c == '-' || c == Char.ofNat 39)
    then some "Name can only contain letters, spaces, hyphens, and apostrophes."
    else none

end Validators

/-- The acceptance predicate that claim C6 describes, following the spec's
words: strip to digits and a leading plus, then require 10-15 digits for an
international number (leading `+`) and 10-11 digits for a domestic one.
Stated for comparison with `Validators.validate_phone_number`, which instead
bounds the length of the cleaned string with its plus signs included. -/
def specPhoneAccepts (value : String) : Bool :=
  let cleaned := value.data.filter (fun c => c.isDigit || c == '+')
  let digits := (value.data.filter Char.isDigit).length
  if cleaned.head? = some '+' then 10 ≤ digits && digits ≤ 15
  else 10 ≤ digits && digits ≤ 11

/-- The valid status values of `views.py::update_applicant_status`
(the `Applicant.status` choice keys). -/
def valid_statuses : List String :=
  ["pending", "reviewed", "shortlisted", "rejected", "hired"]

/-- Embeds `views.py::update_applicant_status` on a loaded applicant row:
a valid new status is stored and reported as success, any other value leaves
the row unchanged and reports failure. -/
def update_applicant_status (a : Applicant) (new_status : String) : Applicant × Bool :=
  if new_status ∈ valid_statuses then ({ a with status := new_status }, true)
  else (a, false)

/-- A stored applicant row as seen by the duplicate-application check:
primary key, email, and nullable job reference. -/
structure ApplicantRec where
  id : Nat
  email : String
  position_applied : Option Nat
deriving Repr, DecidableEq

namespace Validators

/-- Embeds `validators.py::validate_email_duplicate` over a loaded applicant
table.  Python truthiness of the arguments: an empty email or a zero job id
skips the check; `applicant_id` is excluded only when truthy (`some pk` with
`pk ≠ 0`). -/
def validate_email_duplicate (applicants : List ApplicantRec) (email : String)
    (job_id : Nat) (applicant_id : Option Nat) : Option String :=
  if email = "" ∨ job_id = 0 then none
  else
    let queryset := applicants.filter
      (fun (a : ApplicantRec) => a.email = email && a.position_applied = some job_id)
    let queryset :=
      match applicant_id with
      | some pk => if pk ≠ 0 then queryset.filter (fun (a : ApplicantRec) => a.id ≠ pk) else queryset
      | none => queryset
    if queryset.isEmpty then none
    else some "You have already submitted an application for this position."

end Validators

/-- Embeds the applicant-creation path (`ApplicantForm.clean` running
`validate_email_duplicate` with no instance pk, then `save` appending the new
row): on a duplicate the table is unchanged and creation fails, otherwise the
new row is appended. -/
def create_applicant (applicants : List ApplicantRec) (newId : Nat)
    (email : String) (job_id : Nat) : List ApplicantRec × Bool :=
  match Validators.validate_email_duplicate applicants email job_id none with
  | some _ => (applicants, false)
  | none => (applicants ++ [⟨newId, email, some job_id⟩], true)

/-- The `unique_together = [['email', 'position_applied']]` invariant: no two
rows share both email and job reference. -/
def UniquePairs (applicants : List ApplicantRec) : Prop :=
  applicants.Pairwise
    (fun a b => a.email ≠ b.email ∨ a.position_applied ≠ b.position_applied)

/-- A raw applicant-form submission (`ApplicantForm` bound data): text inputs
plus the selected job id. -/
structure Submission where
  full_name : String
  email : String
  phone : String
  linkedin : String
  cover_letter : String
  position_applied : Option Nat
deriving Repr, DecidableEq

namespace Forms

/-- `ApplicantForm.clean_full_name`: runs the validator only on a truthy value. -/
def clean_full_name_errors (s : Submission) : List String :=
  if s.full_name ≠ "" then (Validators.validate_full_name s.full_name).toList else []

/-- `ApplicantForm.clean_phone`: runs the validator only on a truthy value. -/
def clean_phone_errors (s : Submission) : List String :=
  if s.phone ≠ "" then (Validators.validate_phone_number s.phone).toList else []

/-- `ApplicantForm.clean_linkedin`: runs the validator only on a truthy value. -/
def clean_linkedin_errors (s : Submission) : List String :=
  if s.linkedin ≠ "" then (Validators.validate_linkedin_url s.linkedin).toList else []

/-- `ApplicantForm.clean_cover_letter`: runs the validator only on a truthy
value. -/
def clean_cover_letter_errors (s : Submission) : List String :=
  if s.cover_letter ≠ "" then
    (Validators.validate_cover_letter_length s.cover_letter).toList
  else []

/-- `ApplicantForm.clean`: the cross-field duplicate check, run when both
email and job are present (the form instance is a fresh row, pk `none`). -/
def clean_form_errors (s : Submission) (applicants : List ApplicantRec) : List String :=
  match s.position_applied with
  | some j =>
    if s.email ≠ "" then (Validators.validate_email_duplicate applicants s.email j none).toList
    else []
  | none => []

/-- The error set collected by `ApplicantForm`: Django runs every
`clean_<field>` hook independently, records each raised message against its
field, then runs `clean()` and records its message against the form
(`__all__`).  The framework's built-in required/format checks precede these
hooks and are outside the embedded source. -/
def applicant_form_errors (s : Submission) (applicants : List ApplicantRec) :
    List (String × String) :=
  ((clean_full_name_errors s).map (fun m => ("full_name", m))) ++
  ((clean_phone_errors s).map (fun m => ("phone", m))) ++
  ((clean_linkedin_errors s).map (fun m => ("linkedin", m))) ++
  ((clean_cover_letter_errors s).map (fun m => ("cover_letter", m))) ++
  ((clean_form_errors s applicants).map (fun m => ("__all__", m)))

end Forms

/-- Python's `round(q, 2)` on an exact value: round half to even at two
decimal places (banker's rounding). -/
def pyRound2 (q : ℚ) : ℚ :=
  let s := q * 100
  let f : ℤ := ⌊s⌋
  let frac := s - f
  if frac < 1/2 then (f : ℚ) / 100
  else if 1/2 < frac then ((f : ℚ) + 1) / 100
  else if f % 2 = 0 then (f : ℚ) / 100 else ((f : ℚ) + 1) / 100

namespace Utils

/-- The SQL value of
`Job.objects.annotate(...).aggregate(avg=Count('applicants'))['avg']` in
`get_job_statistics`: the jobs table left-joined to applicants on
`position_applied`, counting matched applicant rows — applicants whose job
reference is null (or dangling) are not counted.  Jobs are given by their
primary keys, applicants by their nullable job reference. -/
def total_with_applicants (jobs : List Nat) (applicants : List (Option Nat)) : Nat :=
  (jobs.map (fun j => (applicants.filter (fun p => p = some j)).length)).sum

/-- Embeds the `average_applicants_per_job` computation of
`utils.py::get_job_statistics`: start from 0; when there is at least one job
AND the join count is truthy, use `total_applicants / total_jobs`; the result
is rounded to two decimals. -/
def average_applicants_per_job (jobs : List Nat) (applicants : List (Option Nat)) : ℚ :=
  let total_jobs := jobs.length
  let total_applicants := applicants.length
  let avg : ℚ :=
    if 0 < total_jobs then
      if total_with_applicants jobs applicants ≠ 0 then
        (total_applicants : ℚ) / (total_jobs : ℚ)
      else 0
    else 0
  pyRound2 avg

end Utils

/-- The average that claim C7 describes, following the spec's words:
`totalApplicants / totalJobs` (0 when there are no jobs), rounded to two
decimals, with `totalApplicants` counting every applicant including those
with a null job reference.  Stated for comparison with
`Utils.average_applicants_per_job`. -/
def specAverageApplicantsPerJob (jobs : List Nat) (applicants : List (Option Nat)) : ℚ :=
  if jobs.length = 0 then 0
  else pyRound2 ((applicants.length : ℚ) / (jobs.length : ℚ))

end MizanHR

namespace MizanHR

/-- C1: `Job.get_status` returns exactly one of the four labels; "Expired"
iff the deadline is strictly before `now`; otherwise the label is determined
by `daysLeft = deadline - now`: "Urgent" iff `daysLeft ≤ 3`, "Soon" iff
`3 < daysLeft ≤ 7`, "Active" iff `7 < daysLeft`; and the spec's three
examples (now+2 → Urgent, now+10 → Active, now-1 → Expired) hold. -/
theorem get_status_classification (j : Job) (now : Int) :
    (j.get_status now = "Expired" ∨ j.get_status now = "Urgent" ∨
      j.get_status now = "Soon" ∨ j.get_status now = "Active") ∧
    (j.get_status now = "Expired" ↔ j.deadline < now) ∧
    (¬ j.deadline < now →
      ((j.get_status now = "Urgent" ↔ j.deadline - now ≤ 3) ∧
       (j.get_status now = "Soon" ↔ (3 < j.deadline - now ∧ j.deadline - now ≤ 7)) ∧
       (j.get_status now = "Active" ↔ 7 < j.deadline - now))) ∧
    (Job.get_status ⟨j.title, j.description, now + 2⟩ now = "Urgent") ∧
    (Job.get_status ⟨j.title, j.description, now + 10⟩ now = "Active") ∧
    (Job.get_status ⟨j.title, j.description, now - 1⟩ now = "Expired") := by
  unfold Job.get_status Job.is_expired Job.days_until_deadline
  refine ⟨?_, ?_, ?_, ?_, ?_, ?_⟩ <;>
    simp only [decide_eq_true_eq] <;>
    split_ifs <;>
    simp_all <;>
    omega

/-- Witness for C1 at a concrete job and date: deadline day 5, now day 0,
five days left, status "Soon". -/
theorem get_status_classification_witness :
    Job.get_status ⟨"J", "D", 5⟩ 0 = "Soon" :=
  (((get_status_classification ⟨"J", "D", 5⟩ 0).2.2.1 (by decide)).2.1).2 (by decide)

/-- C2: for a fixed `now`, `Job.get_status` is monotone in the deadline under
the order Expired < Urgent < Soon < Active: lowering the deadline never raises
the status rank. -/
theorem get_status_monotone (j1 j2 : Job) (now : Int)
    (h : j2.deadline < j1.deadline) :
    statusRank (j2.get_status now) ≤ statusRank (j1.get_status now) := by
  unfold Job.get_status Job.is_expired Job.days_until_deadline
  split_ifs <;> simp_all [statusRank] <;> omega

/-- Witness for C2 at concrete jobs: deadlines 1 and 10 with now = 0 give
ranks Urgent ≤ Active. -/
theorem get_status_monotone_witness :
    statusRank (Job.get_status ⟨"A", "a", 1⟩ 0) ≤
      statusRank (Job.get_status ⟨"B", "b", 10⟩ 0) :=
  get_status_monotone ⟨"B", "b", 10⟩ ⟨"A", "a", 1⟩ 0 (by decide)

/-- `pyTruthy` tests string non-emptiness. -/
lemma pyTruthy_eq_true {s : String} : pyTruthy s = true ↔ s ≠ "" := by
  simp [pyTruthy]

/-- The sequential accumulation in `get_profile_completeness_score` equals a
single capped sum of the six weights. -/
lemma completeness_eq (a : Applicant) :
    a.get_profile_completeness_score =
      min ((if pyTruthy a.full_name && pyTruthy a.email && pyTruthy a.phone then 30 else 0) +
           (if pyTruthy a.cover_letter then 20 else 0) +
           (if !a.education_history.isEmpty then 15 else 0) +
           (if !a.work_experience.isEmpty then 15 else 0) +
           (if !a.skills.isEmpty then 10 else 0) +
           (if pyTruthyOpt a.linkedin then 10 else 0)) 100 := by
  simp only [Applicant.get_profile_completeness_score]
  split_ifs <;> omega

/-- C3: the profile completeness score is exactly the sum of the six condition
weights (30 for contact fields, 20 cover letter, 15 education, 15 work,
10 skills, 10 linkedin) capped at 100; it never exceeds 100; an applicant with
only full name, email and phone scores 30, and adding one skill gives 40. -/
theorem profile_completeness_spec (a : Applicant) :
    a.get_profile_completeness_score =
      min ((if a.full_name ≠ "" ∧ a.email ≠ "" ∧ a.phone ≠ "" then 30 else 0) +
           (if a.cover_letter ≠ "" then 20 else 0) +
           (if a.education_history ≠ [] then 15 else 0) +
           (if a.work_experience ≠ [] then 15 else 0) +
           (if a.skills ≠ [] then 10 else 0) +
           (if pyTruthyOpt a.linkedin then 10 else 0)) 100 ∧
    a.get_profile_completeness_score ≤ 100 ∧
    contactOnlyApplicant.get_profile_completeness_score = 30 ∧
    Applicant.get_profile_completeness_score
      { contactOnlyApplicant with skills := [⟨"Python"⟩] } = 40 := by
  refine ⟨?_, ?_, by decide, by decide⟩
  · rw [completeness_eq]
    simp only [Bool.and_eq_true, pyTruthy_eq_true, Bool.not_eq_true',
      List.isEmpty_eq_false, and_assoc]
  · rw [completeness_eq]
    exact Nat.min_le_right _ _

/-- The sequential accumulation in `calculate_applicant_match_score` equals a
single capped sum of the five weights. -/
lemma match_score_eq (a : Applicant) (j : Job) :
    Utils.calculate_applicant_match_score a j =
      min ((if containsSub (strLower a.cover_letter).data (strLower j.title).data
              then (3 : ℚ)/10 else 0) +
           (if !a.work_experience.isEmpty then (2 : ℚ)/10 else 0) +
           (if !a.education_history.isEmpty then (2 : ℚ)/10 else 0) +
           (if !a.skills.isEmpty then (2 : ℚ)/10 else 0) +
           (if pyTruthyOpt a.linkedin then (1 : ℚ)/10 else 0)) 1 := by
  simp only [Utils.calculate_applicant_match_score]
  split_ifs <;> norm_num [min_def]

/-- C4: the match score is exactly the sum of the five condition weights
(0.3 title-in-cover-letter, 0.2 work, 0.2 education, 0.2 skills,
0.1 linkedin) capped at 1; it lies in [0, 1]; an applicant whose cover letter
contains the job title case-insensitively and has nothing else scores exactly
0.3, and adding a linkedin profile brings it to 0.4. -/
theorem match_score_spec (a : Applicant) (j : Job) :
    Utils.calculate_applicant_match_score a j =
      min ((if containsSub (strLower a.cover_letter).data (strLower j.title).data
              then (3 : ℚ)/10 else 0) +
           (if a.work_experience ≠ [] then (2 : ℚ)/10 else 0) +
           (if a.education_history ≠ [] then (2 : ℚ)/10 else 0) +
           (if a.skills ≠ [] then (2 : ℚ)/10 else 0) +
           (if pyTruthyOpt a.linkedin then (1 : ℚ)/10 else 0)) 1 ∧
    0 ≤ Utils.calculate_applicant_match_score a j ∧
    Utils.calculate_applicant_match_score a j ≤ 1 ∧
    Utils.calculate_applicant_match_score coverOnlyApplicant engineerJob = 3/10 ∧
    Utils.calculate_applicant_match_score
      { coverOnlyApplicant with linkedin := some "https://linkedin.com/in/samroe" }
      engineerJob = 4/10 := by
  have hsub : containsSub (strLower coverOnlyApplicant.cover_letter).data
      (strLower engineerJob.title).data = true := by decide
  refine ⟨?_, ?_, ?_, ?_, ?_⟩
  · rw [match_score_eq]
    simp only [Bool.not_eq_true', List.isEmpty_eq_false]
  · rw [match_score_eq]
    refine le_min ?_ (by norm_num)
    split_ifs <;> norm_num
  · rw [match_score_eq]
    exact min_le_right _ _
  · rw [match_score_eq, hsub]
    norm_num [coverOnlyApplicant, pyTruthyOpt, min_def]
  · rw [match_score_eq]
    have hne : ("https://linkedin.com/in/samroe" : String) ≠ "" := by decide
    simp only [coverOnlyApplicant] at hsub ⊢
    simp only [hsub]
    norm_num [pyTruthyOpt, pyTruthy, hne, min_def]

/-- C6 counterexample: for `"+123456789"` (a plus and nine digits) the digit
count is 9, so the spec's rule rejects it, but `validate_phone_number`
accepts it: the source bounds the length of the cleaned string with the plus
sign included (here 10), not the digit count. -/
theorem phone_spec_counterexample :
    Validators.validate_phone_number "+123456789" = none ∧
    specPhoneAccepts "+123456789" = false := by
  decide

/-- C6 amended: for every non-empty phone string, validation succeeds iff,
after removing every character other than digits and plus signs, the length
of the remaining string (plus signs included) is 10-15 when it begins with a
plus and 10-11 otherwise. -/
theorem validate_phone_amended (v : String) (hv : v ≠ "") :
    Validators.validate_phone_number v = none ↔
      (let cleaned := v.data.filter (fun c => c.isDigit || c == '+')
       if cleaned.head? = some '+' then 10 ≤ cleaned.length ∧ cleaned.length ≤ 15
       else 10 ≤ cleaned.length ∧ cleaned.length ≤ 11) := by
  unfold Validators.validate_phone_number
  rw [if_neg hv]
  simp only []
  split_ifs <;> simp_all <;> omega

/-- Witness for the amended C6 at a concrete phone number: "(123) 456-7890"
cleans to ten digits and is accepted. -/
theorem validate_phone_amended_witness :
    Validators.validate_phone_number "(123) 456-7890" = none :=
  (validate_phone_amended "(123) 456-7890" (by decide)).2 (by decide)

/-- C10: the empty string passes the phone, linkedin, education-year,
work-duration and skill-name validators without error, while the cover-letter
and full-name validators reject it. -/
theorem empty_input_validator_behavior :
    Validators.validate_phone_number "" = none ∧
    Validators.validate_linkedin_url "" = none ∧
    Validators.validate_year_format "" = none ∧
    Validators.validate_work_duration_format "" = none ∧
    Validators.validate_skill_name "" = none ∧
    Validators.validate_cover_letter_length "" = some "Cover letter is required." ∧
    Validators.validate_full_name "" = some "Full name is required." := by
  decide

/-- C9: updating an applicant's status succeeds iff the proposed value is one
of pending/reviewed/shortlisted/rejected/hired; an invalid value leaves the
row unchanged, and a valid value is stored whatever the previous status was. -/
theorem update_applicant_status_spec (a : Applicant) (s : String) :
    ((update_applicant_status a s).2 = true ↔
      (s = "pending" ∨ s = "reviewed" ∨ s = "shortlisted" ∨ s = "rejected" ∨ s = "hired")) ∧
    ((update_applicant_status a s).2 = false → (update_applicant_status a s).1 = a) ∧
    ((update_applicant_status a s).2 = true →
      (update_applicant_status a s).1 = { a with status := s }) := by
  unfold update_applicant_status valid_statuses
  split_ifs with h <;> simp_all

/-- Witness for C9: an applicant currently "pending" moves directly to
"hired", which is a valid value. -/
theorem update_applicant_status_witness :
    (update_applicant_status contactOnlyApplicant "hired").1 =
      { contactOnlyApplicant with status := "hired" } :=
  (update_applicant_status_spec contactOnlyApplicant "hired").2.2 (by decide)

/-- C5: with a row (E, J) already stored (E non-empty, J a real job id),
creating another applicant with email E for job J is rejected with the
duplicate-application error and the table is unchanged; creating one with
email E for a different job J2 not yet applied to succeeds and appends the
row; and a successful creation preserves the (email, position) uniqueness
invariant. -/
theorem duplicate_application_integrity
    (state : List ApplicantRec) (E : String) (J J2 newId : Nat)
    (hE : E ≠ "") (hJ : J ≠ 0) (hJ2 : J2 ≠ 0)
    (hdup : ∃ a ∈ state, a.email = E ∧ a.position_applied = some J)
    (hnew : ¬ ∃ a ∈ state, a.email = E ∧ a.position_applied = some J2) :
    create_applicant state newId E J = (state, false) ∧
    create_applicant state newId E J2 = (state ++ [⟨newId, E, some J2⟩], true) ∧
    (UniquePairs state → UniquePairs (create_applicant state newId E J2).1) := by
  have hval : Validators.validate_email_duplicate state E J none =
      some "You have already submitted an application for this position." := by
    unfold Validators.validate_email_duplicate
    rw [if_neg (by tauto)]
    obtain ⟨a, ha, hae, hap⟩ := hdup
    have : a ∈ state.filter (fun a => a.email = E && a.position_applied = some J) := by
      simp [List.mem_filter, ha, hae, hap]
    rw [if_neg]
    intro hcontra
    rw [List.isEmpty_iff] at hcontra
    simp_all
  have hval2 : Validators.validate_email_duplicate state E J2 none = none := by
    unfold Validators.validate_email_duplicate
    rw [if_neg (by tauto)]
    have : state.filter (fun a => a.email = E && a.position_applied = some J2) = [] := by
      rw [List.filter_eq_nil_iff]
      intro a ha
      simp only [Bool.and_eq_true, decide_eq_true_eq, not_and]
      intro hae hap
      exact hnew ⟨a, ha, hae, hap⟩
    simp [this]
  refine ⟨?_, ?_, ?_⟩
  · unfold create_applicant
    rw [hval]
  · unfold create_applicant
    rw [hval2]
  · intro huniq
    unfold create_applicant
    rw [hval2]
    simp only []
    rw [UniquePairs, List.pairwise_append]
    refine ⟨huniq, List.pairwise_singleton _ _, ?_⟩
    intro a ha b hb
    simp only [List.mem_singleton] at hb
    subst hb
    by_cases hae : a.email = E
    · right
      intro hap
      exact hnew ⟨a, ha, hae, hap⟩
    · exact Or.inl hae

/-- Witness for C5: the table holds one application of "x@y.com" to job 1;
re-applying to job 1 is rejected leaving the table unchanged. -/
theorem duplicate_application_integrity_witness :
    create_applicant [⟨1, "x@y.com", some 1⟩] 2 "x@y.com" 1 =
      ([⟨1, "x@y.com", some 1⟩], false) :=
  (duplicate_application_integrity [⟨1, "x@y.com", some 1⟩] "x@y.com" 1 2 2
    (by decide) (by decide) (by decide) (by decide) (by decide)).1

/-- C8: the form's validation is independent per field: whenever the phone
validator and the cover-letter validator each reject their (non-empty) input,
the collected error set contains both messages, not just the first. -/
theorem form_collects_all_errors (s : Submission) (applicants : List ApplicantRec)
    (m1 m2 : String)
    (hp : Validators.validate_phone_number s.phone = some m1)
    (hc : Validators.validate_cover_letter_length s.cover_letter = some m2)
    (hcne : s.cover_letter ≠ "") :
    ("phone", m1) ∈ Forms.applicant_form_errors s applicants ∧
    ("cover_letter", m2) ∈ Forms.applicant_form_errors s applicants := by
  have hpne : s.phone ≠ "" := by
    intro h
    rw [h] at hp
    simp [Validators.validate_phone_number] at hp
  unfold Forms.applicant_form_errors Forms.clean_phone_errors
    Forms.clean_cover_letter_errors
  rw [if_pos hpne, if_pos hcne, hp, hc]
  simp

/-- Witness for C8: a submission with three-digit phone and a short cover
letter collects both the phone and the cover-letter violations. -/
theorem form_collects_all_errors_witness :
    ("phone", "Phone number must contain 10-11 digits. Accepted formats: (123) 456-7890, 123-456-7890, 1234567890")
      ∈ Forms.applicant_form_errors
        ⟨"Test User", "t@x.com", "123", "", "Too short.", some 1⟩ [] ∧
    ("cover_letter", "Cover letter must be at least 50 characters long.")
      ∈ Forms.applicant_form_errors
        ⟨"Test User", "t@x.com", "123", "", "Too short.", some 1⟩ [] :=
  form_collects_all_errors ⟨"Test User", "t@x.com", "123", "", "Too short.", some 1⟩ []
    _ _ (by decide) (by decide) (by decide)

/-- C7 counterexample: one job and one applicant whose job reference is null.
The claim's formula gives `round(1/1, 2) = 1`, but the source computes 0,
because the inner join count is zero and the guard `if total_with_applicants:`
then skips the division. -/
theorem statistics_average_counterexample :
    Utils.average_applicants_per_job [1] [none] = 0 ∧
    specAverageApplicantsPerJob [1] [none] = 1 ∧
    Utils.average_applicants_per_job [1] [none] ≠ specAverageApplicantsPerJob [1] [none] := by
  have h0 : Utils.total_with_applicants [1] [none] = 0 := by decide
  refine ⟨?_, ?_, ?_⟩ <;>
    norm_num [Utils.average_applicants_per_job, specAverageApplicantsPerJob, h0, pyRound2]

/-- C7 amended: the statistics aggregate reports an average of
`round(totalApplicants / totalJobs, 2)` — with `totalApplicants` counting all
applicants, null job references included — only when there is at least one
job and at least one applicant row joins to a job; otherwise it reports 0.
The spec's worked example (3 jobs with 2, 5 and 0 applicants → 2.33) holds. -/
theorem statistics_average_amended (jobs : List Nat) (applicants : List (Option Nat)) :
    Utils.average_applicants_per_job jobs applicants =
      (if 0 < jobs.length ∧ Utils.total_with_applicants jobs applicants ≠ 0 then
        pyRound2 ((applicants.length : ℚ) / (jobs.length : ℚ))
       else 0) ∧
    Utils.average_applicants_per_job [1, 2, 3]
      [some 1, some 1, some 2, some 2, some 2, some 2, some 2] = 233/100 := by
  have hz : pyRound2 0 = 0 := by norm_num [pyRound2]
  constructor
  · simp only [Utils.average_applicants_per_job]
    by_cases h1 : 0 < jobs.length
    · by_cases h2 : Utils.total_with_applicants jobs applicants ≠ 0
      · rw [if_pos h1, if_pos h2, if_pos ⟨h1, h2⟩]
      · rw [if_pos h1, if_neg h2, if_neg (by tauto)]
        exact hz
    · rw [if_neg h1, if_neg (by tauto)]
      exact hz
  · have h7 : Utils.total_with_applicants [1, 2, 3]
        [some 1, some 1, some 2, some 2, some 2, some 2, some 2] = 7 := by decide
    unfold Utils.average_applicants_per_job
    rw [h7]
    norm_num [pyRound2]

end MizanHR
